import Mathlib

/-!
Shallow embedding of the `cfncustomresource` Go package (files `req.go`,
`resp.go`, `yamlbool.go`): the CloudFormation custom-resource Request and
Response data model, the five Response factory methods, the `Send` delivery
method and the `Try` invocation runner, together with theorems settling the
specification claims about them.

Modelling conventions:
- Go `panic` in a factory method is modelled by the factory returning `none`.
- Go `error` values are modelled as `Option String` / `Except` carrying the
  message built by the corresponding `fmt.Errorf` format.
- `context.Context` is modelled as `Option Unit` (`none` = Go `nil` context,
  `some ()` = any non-nil context such as `context.Background()`).
- External effects of `Send` (JSON marshalling of the opaque `Data` payload,
  HTTP request construction, the HTTP round trip) are supplied by a
  `SendEnv` oracle; `Send` itself is translated statement by statement.
- Writes to `os.Stderr` are returned explicitly as a `List String` log.
- Mutation through pointers (the Response back-pointer into the Request
  `responseSent` flag, `baseResponse` filling a nil `Ctx`) is modelled by
  explicit state passing of the `Request` value.
-/

namespace CfnCustomResource

/-- `Request` from `req.go`: a CloudFormation request object.
`ResourceProperties` and `OldResourceProperties` are kept as raw strings
(Go `json.RawMessage`); `Ctx` is `none` for a Go nil context;
`simulatedOutput` is `none` for a nil `io.Writer`. -/
structure Request where
  RequestType : String
  ResponseURL : String
  StackId : String
  RequestId : String
  ResourceType : String
  LogicalResourceId : String
  ResourceProperties : String
  PhysicalResourceId : String
  OldResourceProperties : String
  Ctx : Option Unit
  responseSent : Bool
  simulate : Bool
  simulatedOutput : Option Unit
deriving Repr, DecidableEq

/-- `Response` from `resp.go`. `Data` is the opaque attributes payload
(Go `interface\x7b\x7d`), modelled as an optional opaque string; `Reason`
is the empty string when absent; `respurl` and the back-pointer `sent`
are the unexported coordination fields (the `sent` pointer is modelled
by explicit state passing, so it does not appear as a field). -/
structure Response where
  Status : String
  Reason : String
  PhysicalResourceId : String
  StackId : String
  RequestId : String
  LogicalResourceId : String
  NoEcho : Bool
  Data : Option String
  Ctx : Option Unit
  respurl : String
deriving Repr, DecidableEq

/-- `baseResponse` from `resp.go`: builds the common part of every Response
from a Request. If the Request has a nil `Ctx` it is filled with
`context.Background()` (a mutation of the Request, returned explicitly). -/
def baseResponse (req : Request) : Request × Response :=
  let req := if req.Ctx = none then { req with Ctx := some () } else req
  (req,
    { Status := "SUCCESS"
      Reason := ""
      PhysicalResourceId := req.PhysicalResourceId
      StackId := req.StackId
      RequestId := req.RequestId
      LogicalResourceId := req.LogicalResourceId
      NoEcho := false
      Data := none
      Ctx := req.Ctx
      respurl := req.ResponseURL })

/-- `Request.FailureResponse` from `req.go`: always legal; prints a line to
stderr, then builds a FAILED response with the given reason. Returns the
(possibly Ctx-filled) Request, the Response, and the stderr output. -/
def FailureResponse (req : Request) (reason : String) :
    Request × Response × List String :=
  let log := ["returning a failure response " ++ reason]
  let (req, resp) := baseResponse req
  (req, { resp with Status := "FAILED", Reason := reason }, log)

/-- `Request.CreatedResponse` from `req.go`: legal only for a Create request
with a non-empty physical id; `none` models the Go panic. -/
def CreatedResponse (req : Request) (physicalid : String)
    (attr : Option String) : Option (Request × Response) :=
  if req.RequestType ≠ "Create" then none
  else if physicalid = "" then none
  else
    let (req, resp) := baseResponse req
    some (req, { resp with PhysicalResourceId := physicalid, Data := attr })

/-- `Request.ReplacedResponse` from `req.go`: legal only for an Update
request with a new, non-empty physical id different from the existing one;
`none` models the Go panic. -/
def ReplacedResponse (req : Request) (physicalid : String)
    (attr : Option String) : Option (Request × Response) :=
  if req.RequestType ≠ "Update" then none
  else if req.PhysicalResourceId = physicalid then none
  else if physicalid = "" then none
  else
    let (req, resp) := baseResponse req
    some (req, { resp with PhysicalResourceId := physicalid, Data := attr })

/-- `Request.UpdatedResponse` from `req.go`: legal only for an Update
request; `none` models the Go panic. -/
def UpdatedResponse (req : Request) (attr : Option String) :
    Option (Request × Response) :=
  if req.RequestType ≠ "Update" then none
  else
    let (req, resp) := baseResponse req
    some (req, { resp with Data := attr })

/-- `Request.DeletedResponse` from `req.go`: legal only for a Delete
request; `none` models the Go panic. -/
def DeletedResponse (req : Request) : Option (Request × Response) :=
  if req.RequestType ≠ "Delete" then none
  else
    let (req, resp) := baseResponse req
    some (req, resp)

/-- The failure conditions of `Response.Send` in `resp.go`, each carrying
the data interpolated by the corresponding `fmt.Errorf`. -/
inductive SendError where
  | marshalError (m : String)
  | payloadTooLarge (url : String) (len : Nat)
  | buildRequestError (url : String) (m : String)
  | transportError (url : String) (m : String)
  | unexpectedStatus (url : String) (code : Nat)
deriving Repr, DecidableEq

/-- Rendering of a `SendError` to the Go error string (the `%03d` padding
of the status code is not reproduced). -/
def SendError.msg : SendError → String
  | .marshalError m => "could not marshal Response: " ++ m
  | .payloadTooLarge url len =>
      "response to " ++ url ++ " would include payload of " ++
        toString len ++ " bytes, exceeds max 4096"
  | .buildRequestError url m =>
      "could not build request object for http callback to " ++ url ++
        ": " ++ m
  | .transportError url m =>
      "http callback to cloudformation at " ++ url ++ " failed: " ++ m
  | .unexpectedStatus url code =>
      "http callback to " ++ url ++ " had unexpected http status code " ++
        toString code

instance {α β : Type} [DecidableEq α] [DecidableEq β] :
    DecidableEq (Except α β) := fun a b =>
  match a, b with
  | .error x, .error y =>
      if h : x = y then isTrue (by rw [h]) else isFalse (by simp [h])
  | .error _, .ok _ => isFalse (by simp)
  | .ok _, .error _ => isFalse (by simp)
  | .ok x, .ok y =>
      if h : x = y then isTrue (by rw [h]) else isFalse (by simp [h])

/-- Oracle for the external effects inside `Response.Send`:
`marshal` is the outcome of `json.Marshal` (error message, or the length in
bytes of the encoded body); `buildReq` is the outcome of
`http.NewRequestWithContext`; `http` is the outcome of
`http.DefaultClient.Do` (error message, or the HTTP status code). -/
structure SendEnv where
  marshal : Except String Nat
  buildReq : Except String Unit
  http : Except String Nat
deriving Repr, DecidableEq

/-- Outcome of one call to `Response.Send`: the returned error (if any),
the Request after the call (the `sent` back-pointer write), and whether the
HTTP round trip was attempted (`http.DefaultClient.Do` reached). `Send`
itself writes to no writer, so no log is produced. -/
structure SendResult where
  result : Except SendError Unit
  req : Request
  transmitted : Bool
deriving Repr, DecidableEq

/-- `Response.Send` from `resp.go`, translated statement by statement:
marshal the body; reject a body over 4096 bytes before any network use;
build the outbound PUT request; perform the round trip; treat a status
outside the code's accepted window as an error; only then set the
originating Request's `responseSent` flag through the back-pointer. -/
def Send (env : SendEnv) (resp : Response) (req : Request) : SendResult :=
  match env.marshal with
  | .error m => ⟨.error (.marshalError m), req, false⟩
  | .ok len =>
    if len > 4096 then
      ⟨.error (.payloadTooLarge resp.respurl len), req, false⟩
    else
      match env.buildReq with
      | .error m => ⟨.error (.buildRequestError resp.respurl m), req, false⟩
      | .ok _ =>
        match env.http with
        | .error m => ⟨.error (.transportError resp.respurl m), req, true⟩
        | .ok code =>
          if code < 200 ∨ code ≥ 299 then
            ⟨.error (.unexpectedStatus resp.respurl code), req, true⟩
          else
            ⟨.ok (), { req with responseSent := true }, true⟩

/-- The ways the caller-supplied handler `f` can terminate in
`Request.Try` (`ReqHandler` in `req.go`): a normal return carrying a nil
or non-nil error, a panic carrying an error value, or a panic carrying an
arbitrary value (rendered to a string). -/
inductive HandlerResult where
  | ret (err : Option String)
  | panicErr (m : String)
  | panicVal (m : String)
deriving Repr, DecidableEq

/-- `ReqHandler` from `req.go`: the handler may mutate the Request (in
particular its `responseSent` flag, by delivering Responses) before
terminating. -/
def ReqHandler : Type := Request → Request × HandlerResult

/-- The error string `Try` derives from a handler termination, `none`
when the handler returned nil: a returned error is kept; the inner
`recover` defer rewrites a panic into `panic with error:` / `panic with
value:`. -/
def handlerErrMsg : HandlerResult → Option String
  | .ret none => none
  | .ret (some e) => some e
  | .panicErr m => some ("panic with error: " ++ m)
  | .panicVal m => some ("panic with value: " ++ m)

/-- How one call to `Request.Try` terminates: a nil return, a non-nil
error return, or a panic out of `Try` itself (the fatal abort when the
synthesized failure delivery fails). -/
inductive TryOutcome where
  | ok
  | err (m : String)
  | panicOut (m : String)
deriving Repr, DecidableEq

/-- Outcome of one call to `Request.Try`: how it terminated, the Request
afterwards, the stderr output, and how many failure Responses `Try`
itself attempted to deliver to the callback endpoint. -/
structure TryResult where
  outcome : TryOutcome
  req : Request
  stderr : List String
  failureDeliveries : Nat
deriving Repr, DecidableEq

/-- `Request.Try` from `req.go`, translated defer by defer. Run the
handler; the inner defer turns a panic into an error string. If the
handler produced no error but the `responseSent` flag is still false,
that becomes the error `no response generated and no error received`.
The outer defer then inspects the error: if the flag is already true the
error is wrapped (`received error but response already sent:`) with no
second delivery; otherwise a `FailureResponse` is built and sent, and a
failure of that delivery panics out of `Try`
(`cannot send error response in error handler:`). `env` supplies the
external effects of that one internal `Send`. -/
def Try (env : SendEnv) (req0 : Request) (f : ReqHandler) : TryResult :=
  let (req1, hres) := f req0
  let err : Option String :=
    match handlerErrMsg hres with
    | some e => some e
    | none =>
      if req1.responseSent then none
      else some "no response generated and no error received"
  match err with
  | none => ⟨.ok, req1, [], 0⟩
  | some e =>
    let log0 := ["Try() completed with non-nil error " ++ e]
    if req1.responseSent then
      ⟨.err ("received error but response already sent: " ++ e),
        req1, log0, 0⟩
    else
      let (req2, fresp, flog) := FailureResponse req1 e
      let s := Send env fresp req2
      match s.result with
      | .error ferr =>
          ⟨.panicOut ("cannot send error response in error handler: " ++
              ferr.msg), s.req, log0 ++ flog, 1⟩
      | .ok _ => ⟨.err e, s.req, log0 ++ flog, 1⟩

/-- `YAMLBool.UnmarshalText` from `yamlbool.go`, as a function from the
text to the parsed boolean or the Go error string: the switch accepts
exactly the listed spellings of the YAML boolean tokens. -/
def YAMLBool.unmarshalText (b : String) : Except String Bool :=
  if b ∈ ["y", "Y", "yes", "Yes", "YES", "true", "True", "TRUE",
      "on", "On", "ON"] then
    .ok true
  else if b ∈ ["n", "N", "no", "No", "NO", "false", "False", "FALSE",
      "off", "Off", "OFF"] then
    .ok false
  else
    .error ("cannot parse \"" ++ b ++ "\" as YAML Bool")

/-! Concrete fixtures used by witnesses and counterexamples. -/

/-- A representative inbound Create request with a non-nil context. -/
def sampleRequest : Request where
  RequestType := "Create"
  ResponseURL := "https://callback.example/resp"
  StackId := "stack-1"
  RequestId := "rid-1"
  ResourceType := "Custom::Widget"
  LogicalResourceId := "Widget"
  ResourceProperties := "props"
  PhysicalResourceId := ""
  OldResourceProperties := ""
  Ctx := some ()
  responseSent := false
  simulate := false
  simulatedOutput := none

/-- The sample request with a nil context, as an inbound request decoded
from JSON would have before any handler wrapper fills it. -/
def ctxlessRequest : Request := { sampleRequest with Ctx := none }

/-- A delivery environment where everything succeeds: the body marshals
to 100 bytes, the PUT request builds, and the endpoint answers 200. -/
def okEnv : SendEnv := ⟨.ok 100, .ok (), .ok 200⟩

/-- The Response produced by `baseResponse` on the sample request. -/
def sampleResponse : Response := (baseResponse sampleRequest).2

/-- A handler that returns nil without delivering any Response. -/
def nilHandler : ReqHandler := fun r => (r, .ret none)

/-- A handler that delivers a Response (flag becomes true) and then still
returns an error, as in end-to-end scenario D. -/
def failAfterSendHandler : ReqHandler :=
  fun r => ({ r with responseSent := true }, .ret (some "boom"))

/-! Helper lemmas shared by several claim proofs. -/

/-- The correlation-identifier fields a Response must copy verbatim. -/
def respPreservesIds (req : Request) (resp : Response) : Prop :=
  resp.StackId = req.StackId ∧ resp.RequestId = req.RequestId ∧
    resp.LogicalResourceId = req.LogicalResourceId

/-- `respPreservesIds` lifted over the panic-modelling `Option`. -/
def optPreservesIds (req : Request) :
    Option (Request × Response) → Prop
  | none => True
  | some (_, resp) => respPreservesIds req resp

/-- Whether a `Send` call returned nil. -/
def sendSucceeded (s : SendResult) : Bool :=
  match s.result with
  | .ok _ => true
  | .error _ => false

/-- A Request with its simulation fields overridden, as
`SimulatedRequest` would set them; used to state that those two fields
are never read on the delivery path. -/
def withSim (req : Request) (b : Bool) (w : Option Unit) : Request :=
  { req with simulate := b, simulatedOutput := w }

theorem baseResponse_fields (req : Request) :
    (baseResponse req).2.StackId = req.StackId ∧
      (baseResponse req).2.RequestId = req.RequestId ∧
      (baseResponse req).2.LogicalResourceId = req.LogicalResourceId ∧
      (baseResponse req).2.PhysicalResourceId = req.PhysicalResourceId ∧
      (baseResponse req).2.respurl = req.ResponseURL := by
  unfold baseResponse
  split <;> simp

theorem baseResponse_req (req : Request) :
    (baseResponse req).1 =
      { req with Ctx := if req.Ctx = none then some () else req.Ctx } := by
  unfold baseResponse
  split <;> simp_all

/-! Claim theorems. -/

/-- Claim C1. The claim says every HTTP status in [200,299] is a success,
but the code tests `StatusCode >= 299`, so at status 299 — inside the
claimed success range — `Send` returns an unexpected-status delivery
failure. This evaluates the embedded `Send` at that failing input. -/
theorem send_rejects_status_299 :
    200 ≤ 299 ∧ 299 ≤ 299 ∧
      (Send ⟨.ok 100, .ok (), .ok 299⟩ sampleResponse sampleRequest).result =
        .error (.unexpectedStatus "https://callback.example/resp" 299) := by
  refine ⟨by norm_num, by norm_num, ?_⟩
  rfl

/-- Claim C4. Each factory fails fatally (modelled: returns `none`)
exactly under its documented precondition violation: `CreatedResponse`
iff the kind is not Create or the physical id is empty;
`ReplacedResponse` iff the kind is not Update, or the new id equals the
existing one, or it is empty; `UpdatedResponse` iff the kind is not
Update; `DeletedResponse` iff the kind is not Delete; and
`FailureResponse` is total (it always yields a FAILED response). -/
theorem factory_panic_conditions (req : Request) (reason pid : String)
    (attr : Option String) :
    (CreatedResponse req pid attr = none ↔
        req.RequestType ≠ "Create" ∨ pid = "") ∧
      (ReplacedResponse req pid attr = none ↔
        req.RequestType ≠ "Update" ∨ pid = req.PhysicalResourceId ∨
          pid = "") ∧
      (UpdatedResponse req attr = none ↔ req.RequestType ≠ "Update") ∧
      (DeletedResponse req = none ↔ req.RequestType ≠ "Delete") ∧
      (FailureResponse req reason).2.1.Status = "FAILED" := by
  refine ⟨?_, ?_, ?_, ?_, rfl⟩
  · unfold CreatedResponse
    split_ifs <;> simp_all
  · unfold ReplacedResponse
    split_ifs <;> simp_all [eq_comm]
  · unfold UpdatedResponse
    split_ifs <;> simp_all
  · unfold DeletedResponse
    split_ifs <;> simp_all

/-- Claim C5. `Send` flips the originating Request's `responseSent` flag
exactly on the successful path: after any failure (marshal error,
oversized payload, request construction error, transport error,
unacceptable status) the Request is returned unchanged, and on success it
is returned with the flag set. -/
theorem send_sets_sent_iff_success (env : SendEnv) (resp : Response)
    (req : Request) :
    (Send env resp req).req =
      (if sendSucceeded (Send env resp req) then
        { req with responseSent := true }
      else req) := by
  obtain ⟨m, b, h⟩ := env
  unfold Send
  cases m with
  | error m => simp [sendSucceeded]
  | ok len =>
    by_cases hl : len > 4096
    · simp [hl, sendSucceeded]
    · simp only [hl, if_false]
      cases b with
      | error m => simp [sendSucceeded]
      | ok u =>
        cases h with
        | error m => simp [sendSucceeded]
        | ok code =>
          by_cases hc : code < 200 ∨ code ≥ 299
          · simp [hc, sendSucceeded]
          · simp [hc, sendSucceeded]

/-- Claim C6. Every Response built by a factory operation carries the
StackId, RequestId and LogicalResourceId of the Request that produced
it, unchanged. -/
theorem factories_preserve_correlation_ids (req : Request)
    (reason pid : String) (attr : Option String) :
    respPreservesIds req (FailureResponse req reason).2.1 ∧
      optPreservesIds req (CreatedResponse req pid attr) ∧
      optPreservesIds req (ReplacedResponse req pid attr) ∧
      optPreservesIds req (UpdatedResponse req attr) ∧
      optPreservesIds req (DeletedResponse req) := by
  obtain ⟨h1, h2, h3, -⟩ := baseResponse_fields req
  refine ⟨?_, ?_, ?_, ?_, ?_⟩
  · unfold FailureResponse
    exact ⟨h1, h2, h3⟩
  · unfold CreatedResponse
    split_ifs <;> simp [optPreservesIds, respPreservesIds, h1, h2, h3]
  · unfold ReplacedResponse
    split_ifs <;> simp [optPreservesIds, respPreservesIds, h1, h2, h3]
  · unfold UpdatedResponse
    split_ifs <;> simp [optPreservesIds, respPreservesIds, h1, h2, h3]
  · unfold DeletedResponse
    split_ifs <;> simp [optPreservesIds, respPreservesIds, h1, h2, h3]

/-- Claim C7. When the marshalled body is longer than 4096 bytes, `Send`
fails locally with the payload-too-large error and never reaches the
network; a body of 4096 bytes or fewer can never produce that error. -/
theorem send_payload_bound (env : SendEnv) (resp : Response)
    (req : Request) (len : Nat) (hm : env.marshal = .ok len) :
    (4096 < len →
        (Send env resp req).result =
            .error (.payloadTooLarge resp.respurl len) ∧
          (Send env resp req).transmitted = false) ∧
      (len ≤ 4096 →
        ∀ u l, (Send env resp req).result ≠ .error (.payloadTooLarge u l)) := by
  obtain ⟨m, b, h⟩ := env
  simp only at hm
  subst hm
  unfold Send
  constructor
  · intro hlen
    simp [hlen]
  · intro hlen u l
    have : ¬ len > 4096 := by omega
    simp only [this, if_false]
    cases b <;> simp
    cases h <;> simp
    split_ifs <;> simp

/-- Witness for C7 at a concrete oversized body: 4097 bytes is rejected
locally with no transmission attempted. -/
theorem send_payload_bound_witness :
    (Send ⟨.ok 4097, .ok (), .ok 200⟩ sampleResponse sampleRequest).result =
        .error (.payloadTooLarge sampleResponse.respurl 4097) ∧
      (Send ⟨.ok 4097, .ok (), .ok 200⟩ sampleResponse
          sampleRequest).transmitted = false :=
  (send_payload_bound ⟨.ok 4097, .ok (), .ok 200⟩ sampleResponse
      sampleRequest 4097 rfl).1 (by norm_num)

/-- Claim C2, counterexample. When the handler returns nil without ever
delivering a Response, `Try` does not leave the callback endpoint
unanswered: the outer error handler synthesizes a failure Response and
delivers it (`failureDeliveries = 1`), refuting the claim that no failure
Response is delivered in this case. -/
theorem try_nil_handler_delivery_cex :
    (Try okEnv sampleRequest nilHandler).failureDeliveries = 1 ∧
      (Try okEnv sampleRequest nilHandler).outcome =
        .err "no response generated and no error received" := by
  constructor <;> rfl

/-- Claim C2, amended. When the handler returns nil with the sent flag
still false, `Try` surfaces the error `no response generated and no error
received` to its caller and additionally synthesizes and attempts to
deliver one failure Response to the callback endpoint (panicking out of
`Try` if that delivery itself fails). -/
theorem try_unsent_nil_return_delivers_failure (env : SendEnv)
    (req : Request) (f : ReqHandler)
    (hret : (f req).2 = .ret none)
    (hsent : (f req).1.responseSent = false) :
    (Try env req f).failureDeliveries = 1 ∧
      ((Try env req f).outcome =
          .err "no response generated and no error received" ∨
        ∃ m, (Try env req f).outcome = .panicOut m) := by
  rcases hfq : f req with ⟨req1, hres⟩
  rw [hfq] at hret hsent
  simp only at hret hsent
  subst hret
  unfold Try
  rw [hfq]
  simp only [handlerErrMsg, hsent, Bool.false_eq_true, if_false]
  refine ⟨?_, ?_⟩ <;> split <;> simp

/-- Witness for the amended C2 at a concrete request, handler and
environment. -/
theorem try_unsent_nil_return_delivers_failure_witness :
    (Try okEnv sampleRequest nilHandler).failureDeliveries = 1 ∧
      ((Try okEnv sampleRequest nilHandler).outcome =
          .err "no response generated and no error received" ∨
        ∃ m, (Try okEnv sampleRequest nilHandler).outcome = .panicOut m) :=
  try_unsent_nil_return_delivers_failure okEnv sampleRequest nilHandler
    rfl rfl

/-- Claim C3. When the handler terminates with a failure (returned error
or panic) but the sent flag is already true, `Try` wraps the failure as
`received error but response already sent:` and attempts no delivery of
its own, so no second delivery ever occurs for the Request. -/
theorem try_already_sent_no_second_delivery (env : SendEnv)
    (req : Request) (f : ReqHandler) (e : String)
    (herr : handlerErrMsg (f req).2 = some e)
    (hsent : (f req).1.responseSent = true) :
    (Try env req f).outcome =
        .err ("received error but response already sent: " ++ e) ∧
      (Try env req f).failureDeliveries = 0 := by
  rcases hfq : f req with ⟨req1, hres⟩
  rw [hfq] at herr hsent
  simp only at herr hsent
  unfold Try
  rw [hfq]
  simp [herr, hsent]

/-- Witness for C3: a handler that delivers a Response and still returns
the error `boom` (end-to-end scenario D). -/
theorem try_already_sent_no_second_delivery_witness :
    (Try okEnv sampleRequest failAfterSendHandler).outcome =
        .err ("received error but response already sent: " ++ "boom") ∧
      (Try okEnv sampleRequest failAfterSendHandler).failureDeliveries = 0 :=
  try_already_sent_no_second_delivery okEnv sampleRequest
    failAfterSendHandler "boom" rfl rfl

/-- Claim C8, counterexample. Constructing a `FailureResponse` is not
entirely effect-free: on a Request whose context is nil, `baseResponse`
fills the `Ctx` field (so a Request field changes), and a diagnostic line
is written to stderr. -/
theorem failure_response_side_effects_cex :
    (FailureResponse ctxlessRequest "boom").1 ≠ ctxlessRequest ∧
      (FailureResponse ctxlessRequest "boom").2.2 ≠ [] := by
  constructor
  · intro h
    have hc := congrArg Request.Ctx h
    simp [FailureResponse, baseResponse, ctxlessRequest, sampleRequest]
      at hc
  · simp [FailureResponse]

/-- Claim C8, amended. Constructing a `FailureResponse` transmits nothing
to the callback endpoint and leaves every Request field unchanged except
`Ctx`, which is set to a background context when it was nil; in
particular the sent flag is untouched. It does write one diagnostic line
to stderr. -/
theorem failure_response_frame (req : Request) (reason : String) :
    (FailureResponse req reason).1 =
        { req with Ctx := if req.Ctx = none then some () else req.Ctx } ∧
      (FailureResponse req reason).1.responseSent = req.responseSent ∧
      (FailureResponse req reason).2.2 =
        ["returning a failure response " ++ reason] := by
  have h1 : (FailureResponse req reason).1 =
      { req with Ctx := if req.Ctx = none then some () else req.Ctx } :=
    baseResponse_req req
  refine ⟨h1, ?_, rfl⟩
  rw [h1]

/-- Claim C9, counterexample. The token recognition is not
case-insensitive: the mixed casing `yEs` of the affirmative token `yes`
is rejected with a parse error rather than mapped to true. -/
theorem yamlbool_mixed_case_cex :
    YAMLBool.unmarshalText "yEs" =
        .error "cannot parse \"yEs\" as YAML Bool" ∧
      YAMLBool.unmarshalText "yEs" ≠ .ok true := by
  refine ⟨rfl, by decide⟩

/-- Claim C9, amended. The parser accepts exactly the YAML 1.1 boolean
spellings: `y`/`Y` and the lowercase, capitalized and all-uppercase forms
of `yes`, `true`, `on` map to true; `n`/`N` and the same three forms of
`no`, `false`, `off` map to false; every other string — including any
other mixed casing — yields a parse error. -/
theorem yamlbool_token_table (s : String) :
    (YAMLBool.unmarshalText s = .ok true ↔
        s ∈ ["y", "Y", "yes", "Yes", "YES", "true", "True", "TRUE",
          "on", "On", "ON"]) ∧
      (YAMLBool.unmarshalText s = .ok false ↔
        s ∈ ["n", "N", "no", "No", "NO", "false", "False", "FALSE",
          "off", "Off", "OFF"]) ∧
      (YAMLBool.unmarshalText s =
          .error ("cannot parse \"" ++ s ++ "\" as YAML Bool") ↔
        (s ∉ ["y", "Y", "yes", "Yes", "YES", "true", "True", "TRUE",
            "on", "On", "ON"] ∧
          s ∉ ["n", "N", "no", "No", "NO", "false", "False", "FALSE",
            "off", "Off", "OFF"])) := by
  unfold YAMLBool.unmarshalText
  split_ifs with h1 h2
  · simp only [List.mem_cons, List.not_mem_nil, or_false] at h1
    rcases h1 with rfl | rfl | rfl | rfl | rfl | rfl | rfl | rfl | rfl |
      rfl | rfl <;> decide
  · simp only [List.mem_cons, List.not_mem_nil, or_false] at h2
    rcases h2 with rfl | rfl | rfl | rfl | rfl | rfl | rfl | rfl | rfl |
      rfl | rfl <;> decide
  · simp [h1, h2]

/-- The error and transmission outcome of `Send` do not depend on the
Request argument at all (only the flag write does). -/
theorem send_outcome_ignores_req (env : SendEnv) (resp : Response)
    (r1 r2 : Request) :
    (Send env resp r1).result = (Send env resp r2).result ∧
      (Send env resp r1).transmitted = (Send env resp r2).transmitted := by
  obtain ⟨m, b, h⟩ := env
  unfold Send
  cases m with
  | error m => exact ⟨rfl, rfl⟩
  | ok len =>
    by_cases hl : len > 4096
    · simp [hl]
    · simp only [hl, if_false]
      cases b with
      | error m => exact ⟨rfl, rfl⟩
      | ok u =>
        cases h with
        | error m => exact ⟨rfl, rfl⟩
        | ok code =>
          by_cases hc : code < 200 ∨ code ≥ 299
          · simp [hc]
          · simp [hc]

/-- Claim C10. `Send` is independent of the simulation fields: for two
Requests differing only in `simulate` and `simulatedOutput`, the returned
error, the fact of the real HTTP round trip, and the resulting sent flag
are identical, and the Response built from them is identical — the
simulation fields are never read, and `Send` writes to no log at all. -/
theorem send_independent_of_simulation (env : SendEnv) (resp : Response)
    (req : Request) (b : Bool) (w : Option Unit) :
    (Send env resp (withSim req b w)).result =
        (Send env resp req).result ∧
      (Send env resp (withSim req b w)).transmitted =
        (Send env resp req).transmitted ∧
      (Send env resp (withSim req b w)).req.responseSent =
        (Send env resp req).req.responseSent ∧
      (baseResponse (withSim req b w)).2 = (baseResponse req).2 := by
  obtain ⟨hr, ht⟩ := send_outcome_ignores_req env resp
    (withSim req b w) req
  refine ⟨hr, ht, ?_, ?_⟩
  · obtain ⟨m, bq, h⟩ := env
    unfold Send
    cases m with
    | error m => rfl
    | ok len =>
      by_cases hl : len > 4096
      · simp [hl, withSim]
      · simp only [hl, if_false]
        cases bq with
        | error m => rfl
        | ok u =>
          cases h with
          | error m => rfl
          | ok code =>
            by_cases hc : code < 200 ∨ code ≥ 299
            · simp [hc, withSim]
            · simp [hc, withSim]
  · unfold baseResponse
    split_ifs <;> simp_all [withSim]

end CfnCustomResource
